import Mathlib

/-!
# Verification of the test-coverage tooling scripts

Shallow embedding of `scripts/analyze-test-coverage.py` and
`scripts/generate-test-template.py`, together with theorems settling the
specification claims about them.  Python strings are modelled by `String`
(lists of characters), machine integers by `Nat`/`Int`, the float
percentages by `ℚ`, and the file system by explicit association lists and
existence predicates.
-/

/-! ## String utilities

Python's `pat in hay` substring test and `str.lower`. -/

/-- `pat` occurs as a contiguous substring of `hay` (Python's `pat in hay`). -/
def listContains (pat : List Char) : List Char → Bool
  | [] => pat.isEmpty
  | c :: t => pat.isPrefixOf (c :: t) || listContains pat t

/-- Python `pat in hay` on strings. -/
def strContains (hay pat : String) : Bool := listContains pat.data hay.data

/-- Python `str.lower()` (ASCII case folding, which covers every pattern the
scripts use). -/
def lowerStr (s : String) : String := String.mk (s.data.map Char.toLower)

/-! ## `analyze-test-coverage.py`: the classifier -/

/-- `get_complexity` (analyze-test-coverage.py lines 25-32). -/
def get_complexity (lines : Nat) : String :=
  if lines > 300 then "High" else if lines > 150 then "Medium" else "Low"

/-- `high_patterns` of `get_priority` (lines 37-41). -/
def high_patterns : List String :=
  ["Client", "Page", "Form", "Modal", "Dialog",
   "Auth", "Payment", "Checkout", "Dashboard",
   "Service", "Provider", "Hook"]

/-- `medium_patterns` of `get_priority` (lines 44-47). -/
def medium_patterns : List String :=
  ["Settings", "Profile", "Management", "Editor",
   "Table", "List", "Panel", "Section"]

/-- `business_logic_paths` of `get_priority` (line 50). -/
def business_logic_paths : List String :=
  ["dashboard", "admin", "billing", "auth", "plan"]

/-- `get_priority` (lines 34-70).  The source returns out of the first
matching `for` loop; `List.any` yields the same boolean. -/
def get_priority (filename filepath : String) : String :=
  let filename_lower := lowerStr filename
  let filepath_lower := lowerStr filepath
  if high_patterns.any (fun p => strContains filename_lower (lowerStr p)) then "Critical"
  else if business_logic_paths.any (fun p => strContains filepath_lower p) then "High"
  else if medium_patterns.any (fun p => strContains filename_lower (lowerStr p)) then "Medium"
  else "Low"

/-- Spec-side predicate: the filename case-insensitively contains a critical
substring. -/
def criticalHit (filename : String) : Bool :=
  high_patterns.any (fun p => strContains (lowerStr filename) (lowerStr p))

/-- Spec-side predicate: the lowercased full path contains a business-domain
substring. -/
def businessHit (filepath : String) : Bool :=
  business_logic_paths.any (fun p => strContains (lowerStr filepath) p)

/-- Spec-side predicate: the filename case-insensitively contains a medium
substring. -/
def mediumHit (filename : String) : Bool :=
  medium_patterns.any (fun p => strContains (lowerStr filename) (lowerStr p))

/-- `priority_order` dictionary of `generate_report` (line 180); `none`
models a `KeyError`. -/
def priority_order (p : String) : Option Nat :=
  if p = "Critical" then some 0
  else if p = "High" then some 1
  else if p = "Medium" then some 2
  else if p = "Low" then some 3
  else none

/-- `complexity_order` dictionary of `generate_report` (line 181); `none`
models a `KeyError`. -/
def complexity_order (c : String) : Option Nat :=
  if c = "High" then some 0
  else if c = "Medium" then some 1
  else if c = "Low" then some 2
  else none

/-! ## `analyze-test-coverage.py`: the directory scan -/

/-- One record of the `results` list built by `analyze_directory`
(lines 93-99). -/
structure CoverageGapEntry where
  path : String
  priority : String
  complexity : String
  lines : Nat
  category : String
deriving DecidableEq

/-- A `pathlib.Path` to a source file, split into the pieces the scripts
use (`.parent`, `.stem`, `.suffix`). -/
structure SrcPath where
  parent : String
  stem : String
  ext : String
deriving DecidableEq

/-- `str(path)`: the full path string. -/
def SrcPath.full (p : SrcPath) : String := p.parent ++ "/" ++ p.stem ++ p.ext

/-- The conventional sibling test-file location
`parent/__tests__/<stem>.test<ext>` (analyze-test-coverage.py line 84 and
generate-test-template.py lines 491-495 build the same path). -/
def testFilePath (p : SrcPath) : String :=
  p.parent ++ "/__tests__/" ++ p.stem ++ ".test" ++ p.ext

/-- A file enumerated by `rglob` during a scan: its path, whether `open`
succeeds on it, and `len(f.readlines())` when it does. -/
structure ScanFile where
  path : SrcPath
  readable : Bool
  rawLines : Nat
deriving DecidableEq

/-- `count_lines` (lines 17-23): the bare `except` turns any read failure
into a zero line count. -/
def count_lines (f : ScanFile) : Nat := if f.readable then f.rawLines else 0

/-- The skip test of `analyze_directory` (lines 77-81): allowed extension,
and the full path string does not contain a reserved directory name. -/
def eligible (f : ScanFile) : Bool :=
  (f.path.ext = ".tsx" || f.path.ext = ".ts")
    && !(strContains f.path.full "__tests__")
    && !(strContains f.path.full "node_modules")
    && !(strContains f.path.full ".next")

/-- The body of `analyze_directory`'s loop for one eligible file
(lines 83-99): `testExists` models `test_file.exists()`.  The source stores
the path relative to `BASEDIR`; the model keeps the full path string. -/
def scanFile (testExists : String → Bool) (category : String) (f : ScanFile) :
    Option CoverageGapEntry :=
  if testExists (testFilePath f.path) then none
  else
    some { path := f.path.full
           priority := get_priority f.path.stem f.path.full
           complexity := get_complexity (count_lines f)
           lines := count_lines f
           category := category }

/-- `analyze_directory` (lines 72-101) over an abstract enumeration of the
directory tree.  The source runs one `rglob` pass per extension; the model
keeps the enumeration order of `files` and filters, which is the same
multiset of entries. -/
def analyze_directory (testExists : String → Bool) (category : String)
    (files : List ScanFile) : List CoverageGapEntry :=
  (files.filter eligible).filterMap (scanFile testExists category)

/-! ## `analyze-test-coverage.py`: the report sort -/

/-- The sort key of `generate_report` (line 183):
`(priority_order[p], complexity_order[c], -lines)`.  The dictionary lookups
are totalised with an out-of-range default; `classifier_total` below shows
the default (the `KeyError` branch) is unreachable for classifier
outputs. -/
def sortKey (e : CoverageGapEntry) : Nat × Nat × Int :=
  ((priority_order e.priority).getD 4,
   (complexity_order e.complexity).getD 3,
   -(e.lines : Int))

/-- Lexicographic order on key triples: how Python compares the key
tuples. -/
def keyLE (a b : Nat × Nat × Int) : Prop :=
  a.1 < b.1 ∨ (a.1 = b.1 ∧ (a.2.1 < b.2.1 ∨ (a.2.1 = b.2.1 ∧ a.2.2 ≤ b.2.2)))

instance (a b : Nat × Nat × Int) : Decidable (keyLE a b) := by
  unfold keyLE; exact inferInstance

/-- The entry order induced by the sort key. -/
def entryLE (a b : CoverageGapEntry) : Prop := keyLE (sortKey a) (sortKey b)

instance : DecidableRel entryLE := fun a b => by
  unfold entryLE; exact inferInstance

instance : IsTotal CoverageGapEntry entryLE :=
  ⟨fun a b => by unfold entryLE keyLE; omega⟩

instance : IsTrans CoverageGapEntry entryLE :=
  ⟨fun a b c hab hbc => by unfold entryLE keyLE at hab hbc ⊢; omega⟩

/-- `untested.sort(key=...)` (line 183).  Python's sort is the stable sort
with respect to the key order; `List.insertionSort` is stable
(`sort_untested_stable` below), sorted and a permutation, which determines
the same output. -/
def sort_untested (l : List CoverageGapEntry) : List CoverageGapEntry :=
  List.insertionSort entryLE l

/-- The entries of a list carrying a given sort key, in list order. -/
def keyFilter (k : Nat × Nat × Int) (l : List CoverageGapEntry) :
    List CoverageGapEntry :=
  l.filter (fun e => decide (sortKey e = k))

/-- The concrete three-entry example of the sorting claim. -/
def example_entries : List CoverageGapEntry :=
  [⟨"a", "Critical", "Low", 500, "c"⟩,
   ⟨"b", "Critical", "Low", 100, "c"⟩,
   ⟨"c", "High", "High", 50, "c"⟩]

/-! ## `analyze-test-coverage.py`: the percentages -/

/-- The per-directory file and test-file counts computed in
`generate_report` (lines 122-141), after the test-file subtraction. -/
structure CoverageCounts where
  total_components : Nat
  total_tests : Nat
  total_app : Nat
  total_app_tests : Nat
  total_services : Nat
  total_services_tests : Nat
  total_lib : Nat
  total_lib_tests : Nat
deriving DecidableEq

/-- `total_files` (line 140). -/
def total_files (c : CoverageCounts) : Nat :=
  c.total_components + c.total_app + c.total_lib + c.total_services

/-- `total_test_files` (line 141). -/
def total_test_files (c : CoverageCounts) : Nat :=
  c.total_tests + c.total_app_tests + c.total_lib_tests + c.total_services_tests

/-- The guarded percentage expression
`(testFiles / totalFiles * 100) if totalFiles > 0 else 0` (lines 143 and
207-222); Python float arithmetic modelled over `ℚ`. -/
def coverage_pct (testFiles totalFiles : Nat) : ℚ :=
  if totalFiles > 0 then (testFiles : ℚ) / (totalFiles : ℚ) * 100 else 0

/-- The five percentages the report prints: overall (line 143), then the
Components, App, Services and Lib breakdowns (lines 207, 212, 217, 222). -/
def report_percentages (c : CoverageCounts) : ℚ × ℚ × ℚ × ℚ × ℚ :=
  (coverage_pct (total_test_files c) (total_files c),
   coverage_pct c.total_tests c.total_components,
   coverage_pct c.total_app_tests c.total_app,
   coverage_pct c.total_services_tests c.total_services,
   coverage_pct c.total_lib_tests c.total_lib)

/-! ## `generate-test-template.py`: component analysis

The two `re.findall` patterns are implemented as deterministic
maximal-munch matchers; for both patterns every repetition class is
delimited by a character outside the class, so backtracking can never
produce a different match and maximal munch is exact. -/

/-- `\w` of Python `re`: a word character. -/
def isWordChar (c : Char) : Bool := c.isAlpha || c.isDigit || c = '_'

/-- `\s` of Python `re`: a whitespace character. -/
def isSpaceChar (c : Char) : Bool :=
  c = ' ' || c = '\t' || c = '\n' || c = '\r' || c = '\x0b' || c = '\x0c'

/-- Consume an exact token, or fail. -/
def dropTok (tok : List Char) (l : List Char) : Option (List Char) :=
  if tok.isPrefixOf l then some (l.drop tok.length) else none

/-- Consume one or more characters satisfying `p` (a `+` repetition),
returning them and the rest. -/
def takeClass1 (p : Char → Bool) (l : List Char) :
    Option (List Char × List Char) :=
  let w := l.takeWhile p
  if w.isEmpty then none else some (w, l.drop w.length)

/-- Match `const\s+\[(\w+),\s*set\w+\]\s*=\s*useState` (line 50) at the
head of `l`, returning the captured group and the remainder after the
match. -/
def matchStateHook (l : List Char) : Option (String × List Char) := do
  let l ← dropTok "const".data l
  let (_, l) ← takeClass1 isSpaceChar l
  let l ← dropTok "[".data l
  let (name, l) ← takeClass1 isWordChar l
  let l ← dropTok ",".data l
  let l := l.dropWhile isSpaceChar
  let l ← dropTok "set".data l
  let (_, l) ← takeClass1 isWordChar l
  let l ← dropTok "]".data l
  let l := l.dropWhile isSpaceChar
  let l ← dropTok "=".data l
  let l := l.dropWhile isSpaceChar
  let l ← dropTok "useState".data l
  return (String.mk name, l)

/-- Match `const\s+(\w+)\s*=\s*async\s*\(` (line 53) at the head of `l`. -/
def matchAsyncFunc (l : List Char) : Option (String × List Char) := do
  let l ← dropTok "const".data l
  let (_, l) ← takeClass1 isSpaceChar l
  let (name, l) ← takeClass1 isWordChar l
  let l := l.dropWhile isSpaceChar
  let l ← dropTok "=".data l
  let l := l.dropWhile isSpaceChar
  let l ← dropTok "async".data l
  let l := l.dropWhile isSpaceChar
  let l ← dropTok "(".data l
  return (String.mk name, l)

/-- `re.findall`: scan left to right, emit non-overlapping matches,
continuing after each match.  Every successful match consumes at least the
five characters of `const`, so the length fuel never runs out. -/
def findAllAux (m : List Char → Option (String × List Char)) :
    Nat → List Char → List String
  | 0, _ => []
  | _, [] => []
  | fuel + 1, c :: t =>
    match m (c :: t) with
    | some (name, rest) => name :: findAllAux m fuel rest
    | none => findAllAux m fuel t

/-- `re.findall pattern content`. -/
def findAll (m : List Char → Option (String × List Char)) (l : List Char) :
    List String :=
  findAllAux m l.length l

/-- The dictionary returned by `analyze_component` (lines 64-72). -/
structure ComponentInfo where
  component_name : String
  is_client : Bool
  state_hooks : List String
  async_funcs : List String
  has_form : Bool
  api_calls : Bool
  has_mutations : Bool
deriving DecidableEq

/-- `analyze_component` (lines 37-75) on the text of a readable file; the
`except` branch (an unreadable file) is handled by `create_test_file`
below. -/
def analyze_component (component_name : String) (content : String) :
    ComponentInfo :=
  { component_name := component_name
    is_client := strContains content "\x27use client\x27"
      || strContains content "\"use client\""
    state_hooks := (findAll matchStateHook content.data).take 5
    async_funcs := (findAll matchAsyncFunc content.data).take 5
    has_form := strContains content "onSubmit" || strContains content "<form"
    api_calls := strContains content "fetch(" || strContains content "axios"
      || strContains content ".get(" || strContains content ".post("
    has_mutations :=
      ["useMutation", "mutate", "onCreate", "onUpdate", "onDelete"].any
        (fun w => strContains content w) }

/-! ## `generate-test-template.py`: the skeleton document

The emitted TypeScript text is modelled at `describe`-block granularity:
one constructor per section of the template, the state section carrying
the variable names its placeholder sub-cases iterate over (the source
loop runs over `state_hooks[:3]`, lines 153-171).  The literal Jest
boilerplate inside each block is fixed text parameterised only by the
component name. -/

/-- One `describe` block of the generated skeleton. -/
inductive TestSection where
  | rendering
  | stateManagement (vars : List String)
  | formHandling
  | apiIntegration
  | mutations
  | userInteractions
  | accessibility
  | errorHandling
  | edgeCases
deriving DecidableEq

/-- `generate_test_template` (lines 77-475): the header and Rendering block
always open the document, the four conditional blocks follow in source
order, and the Interactions, Accessibility, Error Handling and Edge Cases
blocks are always appended. -/
def generate_test_template (info : ComponentInfo) : List TestSection :=
  [TestSection.rendering]
    ++ (if info.state_hooks.isEmpty then []
        else [TestSection.stateManagement (info.state_hooks.take 3)])
    ++ (if info.has_form then [TestSection.formHandling] else [])
    ++ (if info.api_calls then [TestSection.apiIntegration] else [])
    ++ (if info.has_mutations then [TestSection.mutations] else [])
    ++ [TestSection.userInteractions, TestSection.accessibility,
        TestSection.errorHandling, TestSection.edgeCases]

/-- Recogniser for the state-management section. -/
def isStateSection : TestSection → Bool
  | TestSection.stateManagement _ => true
  | _ => false

/-- Heading of one section, used to serialise a generated document. -/
def sectionTag : TestSection → String
  | TestSection.rendering => "Rendering"
  | TestSection.stateManagement vs => String.join ("State Management" :: vs)
  | TestSection.formHandling => "Form Handling"
  | TestSection.apiIntegration => "API Integration"
  | TestSection.mutations => "Data Mutations"
  | TestSection.userInteractions => "User Interactions"
  | TestSection.accessibility => "Accessibility"
  | TestSection.errorHandling => "Error Handling"
  | TestSection.edgeCases => "Edge Cases"

/-- The text written for a generated document (section structure only; the
fixed Jest boilerplate is excluded formatting glue). -/
def renderTemplate (doc : List TestSection) : String :=
  String.join (doc.map sectionTag)

/-! ## `generate-test-template.py`: the batch run -/

/-- State of a file on disk: readable text, or a file `open` fails on. -/
inductive FileData where
  | readable (content : String)
  | unreadable
deriving DecidableEq

/-- The file system as an association list; `none` means the path does not
exist (`Path.exists()` is `False`). -/
def fsLookup : List (String × FileData) → String → Option FileData
  | [], _ => none
  | (q, d) :: t, p => if q = p then some d else fsLookup t p

/-- `create_test_file` (lines 477-509): returns the updated file system,
the boolean result, and the printed messages.  A missing component, a
component `analyze_component` fails on, and a pre-existing test file all
return `false` without writing; only the last branch writes. -/
def create_test_file (fs : List (String × FileData)) (p : SrcPath) :
    List (String × FileData) × Bool × List String :=
  match fsLookup fs p.full with
  | none => (fs, false, ["Component not found: " ++ p.full])
  | some FileData.unreadable => (fs, false, ["Error analyzing " ++ p.full])
  | some (FileData.readable content) =>
    if (fsLookup fs (testFilePath p)).isSome then
      (fs, false, ["Test file already exists: " ++ testFilePath p])
    else
      ((testFilePath p,
        FileData.readable
          (renderTemplate (generate_test_template
            (analyze_component p.stem content)))) :: fs,
       true, ["Created test file: " ++ testFilePath p])

/-- The `created`/`skipped`/`errors` tallies of `main` (lines 515-534). -/
structure RunSummary where
  created : Nat
  skipped : Nat
  errors : Nat
deriving DecidableEq

/-- The loop of `main` (lines 519-528).  A `True` result increments
`created`, a `False` result increments `skipped`; `errors` counts only
exceptions escaping `create_test_file`, and every outcome the function
itself handles (missing file, unreadable file, pre-existing test) returns
`False`, so within the model `errors` stays 0. -/
def runBatch (fs : List (String × FileData)) :
    List SrcPath → List (String × FileData) × RunSummary
  | [] => (fs, ⟨0, 0, 0⟩)
  | p :: ps =>
    let r := create_test_file fs p
    let rest := runBatch r.1 ps
    (rest.1,
     if r.2.1 then ⟨rest.2.created + 1, rest.2.skipped, rest.2.errors⟩
     else ⟨rest.2.created, rest.2.skipped + 1, rest.2.errors⟩)

/-! ## Helper lemmas -/

/-- `get_priority` unfolded into the three spec-side checks. -/
theorem get_priority_eq (fn fp : String) :
    get_priority fn fp =
      (if criticalHit fn then "Critical"
       else if businessHit fp then "High"
       else if mediumHit fn then "Medium"
       else "Low") := rfl

/-! ## Claim theorems -/

/-- C1: `get_priority` evaluates its rules in strict first-match-wins
order: a case-insensitive critical substring in the filename gives
Critical regardless of the path; otherwise a business-domain substring in
the lowercased full path gives High, even when the filename also contains
a medium substring; otherwise a case-insensitive medium substring in the
filename gives Medium; otherwise Low. -/
theorem get_priority_first_match_wins (fn fp : String) :
    get_priority fn fp =
      (if criticalHit fn then "Critical"
       else if businessHit fp then "High"
       else if mediumHit fn then "Medium"
       else "Low") ∧
    (get_priority fn fp = "Critical" ↔ criticalHit fn = true) ∧
    (get_priority fn fp = "High" ↔
      (criticalHit fn = false ∧ businessHit fp = true)) ∧
    (get_priority fn fp = "Medium" ↔
      (criticalHit fn = false ∧ businessHit fp = false ∧ mediumHit fn = true)) ∧
    (get_priority fn fp = "Low" ↔
      (criticalHit fn = false ∧ businessHit fp = false ∧ mediumHit fn = false)) := by
  refine ⟨get_priority_eq fn fp, ?_⟩
  rw [get_priority_eq fn fp]
  cases hc : criticalHit fn <;> cases hb : businessHit fp <;>
    cases hm : mediumHit fn <;> decide

/-- C2: `get_complexity L` is High iff `L > 300`, Medium iff
`150 < L ≤ 300`, Low iff `L ≤ 150`; the boundary values 150, 151, 300 and
301 classify as Low, Medium, Medium and High. -/
theorem get_complexity_thresholds (L : Nat) :
    (get_complexity L = "High" ↔ 300 < L) ∧
    (get_complexity L = "Medium" ↔ 150 < L ∧ L ≤ 300) ∧
    (get_complexity L = "Low" ↔ L ≤ 150) ∧
    get_complexity 150 = "Low" ∧ get_complexity 151 = "Medium" ∧
    get_complexity 300 = "Medium" ∧ get_complexity 301 = "High" := by
  refine ⟨?_, ?_, ?_, by decide, by decide, by decide, by decide⟩ <;>
    · unfold get_complexity
      split_ifs with h1 h2 <;> simp <;> omega

/-- C9: `get_priority` always returns one of Critical, High, Medium, Low
(each attained), `get_complexity` one of High, Medium, Low (each
attained), so the sort-key dictionary lookups of `generate_report` are
defined on every scan-produced entry and the `KeyError` branch is
unreachable. -/
theorem classifier_total (fn fp : String) (L : Nat) :
    get_priority fn fp ∈ (["Critical", "High", "Medium", "Low"] : List String) ∧
    (priority_order (get_priority fn fp)).isSome = true ∧
    get_complexity L ∈ (["High", "Medium", "Low"] : List String) ∧
    (complexity_order (get_complexity L)).isSome = true ∧
    get_priority "Form" "" = "Critical" ∧
    get_priority "x" "auth" = "High" ∧
    get_priority "Settings" "" = "Medium" ∧
    get_priority "x" "" = "Low" ∧
    get_complexity 301 = "High" ∧ get_complexity 200 = "Medium" ∧
    get_complexity 0 = "Low" := by
  refine ⟨?_, ?_, ?_, ?_, by decide, by decide, by decide, by decide,
    by decide, by decide, by decide⟩
  · rw [get_priority_eq fn fp]; split_ifs <;> decide
  · rw [get_priority_eq fn fp]; split_ifs <;> decide
  · unfold get_complexity; split_ifs <;> decide
  · unfold get_complexity; split_ifs <;> decide

/-- C10: the business-domain check is a plain case-insensitive substring
test on the entire path string, filename included: `airplane-utils.ts`
contains `plan` inside a longer word and no critical substring, and its
priority is High even though no directory segment is a business-domain
name. -/
theorem business_match_inside_filename :
    get_priority "airplane-utils" "components/ui/airplane-utils.ts" = "High" ∧
    criticalHit "airplane-utils" = false ∧
    businessHit "components/ui/airplane-utils.ts" = true ∧
    strContains (lowerStr "airplane-utils") "plan" = true := by decide

/-- Inserting an entry whose key is not `k` leaves the key-`k` entries of a
list untouched. -/
theorem filter_orderedInsert_neg (a : CoverageGapEntry)
    (k : Nat × Nat × Int) (h : ¬ sortKey a = k) :
    ∀ l : List CoverageGapEntry,
      (List.orderedInsert entryLE a l).filter (fun e => decide (sortKey e = k)) =
        l.filter (fun e => decide (sortKey e = k))
  | [] => by simp [h]
  | b :: t => by
    by_cases hab : entryLE a b
    · simp [List.orderedInsert, hab, h]
    · simp only [List.orderedInsert, if_neg hab, List.filter_cons]
      rw [filter_orderedInsert_neg a k h t]

/-- Inserting an entry of key `k` puts it in front of every key-`k` entry
already in the list: the entries it jumps over all compare strictly below
it. -/
theorem filter_orderedInsert_key (a : CoverageGapEntry)
    (k : Nat × Nat × Int) (ha : sortKey a = k) :
    ∀ l : List CoverageGapEntry,
      (List.orderedInsert entryLE a l).filter (fun e => decide (sortKey e = k)) =
        a :: l.filter (fun e => decide (sortKey e = k))
  | [] => by simp [ha]
  | b :: t => by
    by_cases hab : entryLE a b
    · simp [List.orderedInsert, hab, ha]
    · have hbk : ¬ sortKey b = k := by
        intro hbk
        exact hab (show keyLE (sortKey a) (sortKey b) by
          rw [ha, hbk]; unfold keyLE; omega)
      simp only [List.orderedInsert, if_neg hab, List.filter_cons]
      rw [filter_orderedInsert_key a k ha t]
      simp [hbk]

/-- Stability of the report sort: the subsequence of entries carrying any
fixed sort key is unchanged. -/
theorem keyFilter_sort (k : Nat × Nat × Int) :
    ∀ l : List CoverageGapEntry, keyFilter k (sort_untested l) = keyFilter k l
  | [] => rfl
  | a :: l => by
    have ih := keyFilter_sort k l
    unfold sort_untested keyFilter at ih ⊢
    simp only [List.insertionSort]
    by_cases h : sortKey a = k
    · rw [filter_orderedInsert_key a k h (List.insertionSort entryLE l), ih]
      simp [List.filter_cons, h]
    · rw [filter_orderedInsert_neg a k h (List.insertionSort entryLE l), ih]
      simp [List.filter_cons, h]

/-- C3: the report generator sorts the gap list by the stable total order
with primary key priority rank (Critical, High, Medium, Low), secondary
key complexity rank (High, Medium, Low) and tertiary key line count
descending (the order `entryLE` on `sortKey`): the output is sorted, is a
permutation of the input, entries of equal key keep their relative order,
and the three-entry example sorts to exactly its original order. -/
theorem report_sort_ranked_and_stable (l : List CoverageGapEntry)
    (k : Nat × Nat × Int) :
    (sort_untested l).Sorted entryLE ∧
    List.Perm (sort_untested l) l ∧
    keyFilter k (sort_untested l) = keyFilter k l ∧
    sort_untested example_entries = example_entries :=
  ⟨List.sorted_insertionSort entryLE l, List.perm_insertionSort entryLE l,
   keyFilter_sort k l, by decide⟩

/-- The `components/ui/Button.tsx` scenario file of the scan claim. -/
def buttonFile : ScanFile := ⟨⟨"components/ui", "Button", ".tsx"⟩, true, 200⟩

/-- An unreadable service file, for the zero-line-count scenario. -/
def unreadableFile : ScanFile := ⟨⟨"services", "util", ".ts"⟩, false, 42⟩

/-- C4: an eligible scanned file produces exactly one gap entry iff no
sibling test file exists at `parent/__tests__/<stem>.test<ext>`; an
unreadable file is not skipped and yields an entry with line count 0 and
complexity Low; the scan processes the remaining files regardless of each
file's outcome; and the 200-line `components/ui/Button.tsx` scenario
yields complexity Medium and priority Low. -/
theorem analyze_directory_gap_entries :
    (∀ (tE : String → Bool) (cat : String) (f : ScanFile),
      eligible f = true →
      ((scanFile tE cat f).isSome ↔ tE (testFilePath f.path) = false)) ∧
    (∀ (tE : String → Bool) (cat : String) (f : ScanFile),
      f.readable = false → tE (testFilePath f.path) = false →
      scanFile tE cat f =
        some ⟨f.path.full, get_priority f.path.stem f.path.full, "Low", 0, cat⟩) ∧
    (∀ (tE : String → Bool) (cat : String) (f : ScanFile)
      (rest : List ScanFile),
      analyze_directory tE cat (f :: rest) =
        (if eligible f then (scanFile tE cat f).toList else [])
          ++ analyze_directory tE cat rest) ∧
    analyze_directory (fun _ => false) "UI Components" [buttonFile] =
      [⟨"components/ui/Button.tsx", "Low", "Medium", 200, "UI Components"⟩] := by
  refine ⟨?_, ?_, ?_, by decide⟩
  · intro tE cat f _
    unfold scanFile
    cases h : tE (testFilePath f.path) <;> simp [h]
  · intro tE cat f hr ht
    simp only [scanFile, ht, if_false, Bool.false_eq_true, count_lines, hr]
    rfl
  · intro tE cat f rest
    cases h : eligible f <;>
      cases hs : scanFile tE cat f <;>
        simp [analyze_directory, List.filter_cons, h, List.filterMap_cons, hs]

/-- Witness for `analyze_directory_gap_entries` at the two scenario
files. -/
theorem analyze_directory_gap_entries_witness :
    ((scanFile (fun _ => false) "UI Components" buttonFile).isSome ↔
      (fun _ => false) (testFilePath buttonFile.path) = false) ∧
    scanFile (fun _ => false) "Services" unreadableFile =
      some ⟨unreadableFile.path.full,
        get_priority unreadableFile.path.stem unreadableFile.path.full,
        "Low", 0, "Services"⟩ :=
  ⟨analyze_directory_gap_entries.1 (fun _ => false) "UI Components" buttonFile
      (by decide),
   analyze_directory_gap_entries.2.1 (fun _ => false) "Services" unreadableFile
      rfl rfl⟩

/-- C8: every coverage percentage of the report evaluates
`testFiles / totalFiles × 100` only under a positive denominator and
yields exactly 0 when the total file count is 0, overall and for each
directory group. -/
theorem coverage_pct_guarded (c : CoverageCounts) (t n : Nat) :
    coverage_pct t 0 = 0 ∧
    (0 < n → coverage_pct t n = (t : ℚ) / (n : ℚ) * 100) ∧
    (total_files c = 0 → (report_percentages c).1 = 0) ∧
    (c.total_components = 0 → (report_percentages c).2.1 = 0) ∧
    (c.total_app = 0 → (report_percentages c).2.2.1 = 0) ∧
    (c.total_services = 0 → (report_percentages c).2.2.2.1 = 0) ∧
    (c.total_lib = 0 → (report_percentages c).2.2.2.2 = 0) := by
  refine ⟨by simp [coverage_pct], fun h => by simp [coverage_pct, h],
    ?_, ?_, ?_, ?_, ?_⟩ <;>
    · intro h
      simp [report_percentages, coverage_pct, h]

/-- Witness for `coverage_pct_guarded` with zero counts and a positive
denominator instance. -/
theorem coverage_pct_guarded_witness :
    coverage_pct 5 0 = 0 ∧
    coverage_pct 5 2 = (5 : ℚ) / (2 : ℚ) * 100 ∧
    (report_percentages ⟨0, 0, 0, 0, 0, 0, 0, 0⟩).1 = 0 ∧
    (report_percentages ⟨0, 0, 0, 0, 0, 0, 0, 0⟩).2.1 = 0 ∧
    (report_percentages ⟨0, 0, 0, 0, 0, 0, 0, 0⟩).2.2.1 = 0 ∧
    (report_percentages ⟨0, 0, 0, 0, 0, 0, 0, 0⟩).2.2.2.1 = 0 ∧
    (report_percentages ⟨0, 0, 0, 0, 0, 0, 0, 0⟩).2.2.2.2 = 0 :=
  ⟨(coverage_pct_guarded ⟨0, 0, 0, 0, 0, 0, 0, 0⟩ 5 2).1,
   (coverage_pct_guarded ⟨0, 0, 0, 0, 0, 0, 0, 0⟩ 5 2).2.1 (by decide),
   (coverage_pct_guarded ⟨0, 0, 0, 0, 0, 0, 0, 0⟩ 5 2).2.2.1 rfl,
   (coverage_pct_guarded ⟨0, 0, 0, 0, 0, 0, 0, 0⟩ 5 2).2.2.2.1 rfl,
   (coverage_pct_guarded ⟨0, 0, 0, 0, 0, 0, 0, 0⟩ 5 2).2.2.2.2.1 rfl,
   (coverage_pct_guarded ⟨0, 0, 0, 0, 0, 0, 0, 0⟩ 5 2).2.2.2.2.2.1 rfl,
   (coverage_pct_guarded ⟨0, 0, 0, 0, 0, 0, 0, 0⟩ 5 2).2.2.2.2.2.2 rfl⟩

/-- Section structure of a generated skeleton as a function of the
detected signals. -/
theorem template_sections_of_info (info : ComponentInfo) :
    TestSection.rendering ∈ generate_test_template info ∧
    TestSection.userInteractions ∈ generate_test_template info ∧
    TestSection.accessibility ∈ generate_test_template info ∧
    TestSection.errorHandling ∈ generate_test_template info ∧
    TestSection.edgeCases ∈ generate_test_template info ∧
    ((generate_test_template info).filter isStateSection =
      (if info.state_hooks.isEmpty then []
       else [TestSection.stateManagement (info.state_hooks.take 3)])) ∧
    (TestSection.formHandling ∈ generate_test_template info ↔
      info.has_form = true) ∧
    (TestSection.apiIntegration ∈ generate_test_template info ↔
      info.api_calls = true) ∧
    (TestSection.mutations ∈ generate_test_template info ↔
      info.has_mutations = true) := by
  obtain ⟨n, ic, sh, af, hf, ac, hm⟩ := info
  cases sh <;> cases hf <;> cases ac <;> cases hm <;>
    simp [generate_test_template, isStateSection, List.filter]

/-- C6: for every analyzed target file, the skeleton contains the
rendering, user-interaction, accessibility, error-handling and edge-case
sections unconditionally; the state-management section appears iff at
least one `useState` declaration was detected, with one placeholder
sub-case per detected variable capped at 3; the form-handling section iff
a form signal, the API-integration section iff a network-call signal, the
mutation section iff a mutation-identifier signal; and the form-plus-fetch
scenario yields exactly the form-handling and API-integration sections
without the mutation section. -/
theorem generated_skeleton_sections (name content : String) :
    (TestSection.rendering ∈
        generate_test_template (analyze_component name content) ∧
      TestSection.userInteractions ∈
        generate_test_template (analyze_component name content) ∧
      TestSection.accessibility ∈
        generate_test_template (analyze_component name content) ∧
      TestSection.errorHandling ∈
        generate_test_template (analyze_component name content) ∧
      TestSection.edgeCases ∈
        generate_test_template (analyze_component name content) ∧
      ((generate_test_template (analyze_component name content)).filter
          isStateSection =
        (if (analyze_component name content).state_hooks.isEmpty then []
         else [TestSection.stateManagement
            ((analyze_component name content).state_hooks.take 3)])) ∧
      (TestSection.formHandling ∈
          generate_test_template (analyze_component name content) ↔
        (analyze_component name content).has_form = true) ∧
      (TestSection.apiIntegration ∈
          generate_test_template (analyze_component name content) ↔
        (analyze_component name content).api_calls = true) ∧
      (TestSection.mutations ∈
          generate_test_template (analyze_component name content) ↔
        (analyze_component name content).has_mutations = true)) ∧
    generate_test_template (analyze_component "Widget" "<form action> fetch(url)") =
      [TestSection.rendering, TestSection.formHandling,
       TestSection.apiIntegration, TestSection.userInteractions,
       TestSection.accessibility, TestSection.errorHandling,
       TestSection.edgeCases] :=
  ⟨template_sections_of_info (analyze_component name content), by decide⟩

/-- C5: when the skeleton document already exists at
`parent/__tests__/<stem>.test<ext>`, re-running the synthesizer performs
no write at all — the file system is returned unchanged — and the item is
reported and tallied as skipped, not as an error. -/
theorem skip_existing_skeleton (fs : List (String × FileData)) (p : SrcPath)
    (content : String)
    (hc : fsLookup fs p.full = some (FileData.readable content))
    (ht : (fsLookup fs (testFilePath p)).isSome = true) :
    create_test_file fs p =
      (fs, false, ["Test file already exists: " ++ testFilePath p]) ∧
    (∀ ps, runBatch fs (p :: ps) =
      ((runBatch fs ps).1,
       ⟨(runBatch fs ps).2.created, (runBatch fs ps).2.skipped + 1,
        (runBatch fs ps).2.errors⟩)) := by
  have h1 : create_test_file fs p =
      (fs, false, ["Test file already exists: " ++ testFilePath p]) := by
    unfold create_test_file
    rw [hc]
    simp [ht]
  exact ⟨h1, fun ps => by simp [runBatch, h1]⟩

/-- A file system holding a component and its already-generated test. -/
def demoFS : List (String × FileData) :=
  [("app/Widget.tsx", FileData.readable "x"),
   ("app/__tests__/Widget.test.tsx", FileData.readable "old")]

/-- The component path of `demoFS`. -/
def demoPath : SrcPath := ⟨"app", "Widget", ".tsx"⟩

/-- Witness for `skip_existing_skeleton` on a concrete file system. -/
theorem skip_existing_skeleton_witness :
    create_test_file demoFS demoPath =
      (demoFS, false, ["Test file already exists: " ++ testFilePath demoPath]) ∧
    runBatch demoFS [demoPath] =
      ((runBatch demoFS []).1,
       ⟨(runBatch demoFS []).2.created, (runBatch demoFS []).2.skipped + 1,
        (runBatch demoFS []).2.errors⟩) := by
  have h := skip_existing_skeleton demoFS demoPath "x" (by decide) (by decide)
  exact ⟨h.1, h.2 []⟩

/-- C7 counterexample: a missing target file is logged with its path but
tallied in `skipped`, with `errors` remaining 0 — not counted separately
from the pre-existing-skeleton outcome as the claim states. -/
theorem missing_target_counted_as_skipped :
    runBatch [] [⟨"app", "Missing", ".tsx"⟩] =
      ([], ⟨0, 1, 0⟩) ∧
    (create_test_file [] ⟨"app", "Missing", ".tsx"⟩).2.2 =
      ["Component not found: app/Missing.tsx"] := by decide

/-- C7 (amended): a missing or unreadable target is logged with a per-item
message identifying its path and the batch continues with the remaining
items, but the outcome is tallied in the same `skipped` count as
pre-existing skeletons; the `errors` count covers only exceptions that
escape `create_test_file`. -/
theorem missing_target_logged_and_continues (fs : List (String × FileData))
    (p : SrcPath)
    (h : fsLookup fs p.full = none ∨
      fsLookup fs p.full = some FileData.unreadable) :
    (create_test_file fs p).1 = fs ∧
    (create_test_file fs p).2.1 = false ∧
    (∃ m : String, (create_test_file fs p).2.2 = [m ++ p.full]) ∧
    (∀ ps, runBatch fs (p :: ps) =
      ((runBatch fs ps).1,
       ⟨(runBatch fs ps).2.created, (runBatch fs ps).2.skipped + 1,
        (runBatch fs ps).2.errors⟩)) := by
  rcases h with h | h
  · have h1 : create_test_file fs p =
        (fs, false, ["Component not found: " ++ p.full]) := by
      unfold create_test_file
      rw [h]
    exact ⟨by rw [h1], by rw [h1], ⟨"Component not found: ", by rw [h1]⟩,
      fun ps => by simp [runBatch, h1]⟩
  · have h1 : create_test_file fs p =
        (fs, false, ["Error analyzing " ++ p.full]) := by
      unfold create_test_file
      rw [h]
    exact ⟨by rw [h1], by rw [h1], ⟨"Error analyzing ", by rw [h1]⟩,
      fun ps => by simp [runBatch, h1]⟩

/-- An unreadable component next to a readable one, for the continuation
witness. -/
def demoFS2 : List (String × FileData) :=
  [("app/Broken.tsx", FileData.unreadable)]

/-- Witness for `missing_target_logged_and_continues` at a concrete
unreadable target. -/
theorem missing_target_logged_and_continues_witness :
    (create_test_file demoFS2 ⟨"app", "Broken", ".tsx"⟩).1 = demoFS2 ∧
    (create_test_file demoFS2 ⟨"app", "Broken", ".tsx"⟩).2.1 = false ∧
    (∃ m : String, (create_test_file demoFS2 ⟨"app", "Broken", ".tsx"⟩).2.2 =
      [m ++ SrcPath.full ⟨"app", "Broken", ".tsx"⟩]) ∧
    runBatch demoFS2 [⟨"app", "Broken", ".tsx"⟩] =
      ((runBatch demoFS2 []).1,
       ⟨(runBatch demoFS2 []).2.created, (runBatch demoFS2 []).2.skipped + 1,
        (runBatch demoFS2 []).2.errors⟩) := by
  have h := missing_target_logged_and_continues demoFS2 ⟨"app", "Broken", ".tsx"⟩
    (Or.inr (by decide))
  exact ⟨h.1, h.2.1, h.2.2.1, h.2.2.2 []⟩
